import Mathlib

/-!
# AudioShelf playback session core — verification

Shallow embedding of the playback-session core of AudioShelf (player frame
logic, sleep timer, background duration-refinement worker) together with
proofs and refutations of the specified properties.

Each definition is translated from the named Python source location.
Millisecond positions and durations are modelled as `Int` (Python ints),
wall-clock timestamps as stated at each definition.
-/

namespace AudioShelf

/-! ## Seek logic — `frames/player/seek_logic.py` -/

/-- Embedding of `seek_absolute` (seek_logic.py, lines 64–83), restricted to the
value handed to `engine.set_time`.  `durationMs` is
`frame.current_file_duration_ms`; `targetMs` the requested position.
The source computes `new_time = max(0, target_ms)`, and when the duration is
known (`> 0`) additionally `new_time = min(new_time, duration - 1000)`
followed by `new_time = max(0, new_time)`. -/
def seek_absolute (durationMs targetMs : Int) : Int :=
  let newTime := max 0 targetMs
  if 0 < durationMs then
    max 0 (min newTime (durationMs - 1000))
  else
    newTime

/-- Embedding of `seek_relative` (seek_logic.py, lines 36–48): computes
`current_time + ms` and delegates to `seek_absolute`. -/
def seek_relative (durationMs currentMs ms : Int) : Int :=
  seek_absolute durationMs (currentMs + ms)

/-- C3 counterexample: for a file whose known duration is 500 ms, every seek is
clamped to position 0, which is (a) not inside the interval
`[0, durationMs - 1000]` claimed by the spec (that interval is empty), and
(b) within the last 1000 ms of the file — the engine *is* handed a position in
the final second. -/
theorem seek_clamp_short_file_counterexample :
    seek_absolute 500 1200 = 0 ∧
    ¬ seek_absolute 500 1200 ≤ 500 - 1000 ∧
    500 - seek_absolute 500 1200 < 1000 := by
  refine ⟨by rfl, by decide, by decide⟩

/-- C3 (amended): every absolute or relative seek hands the engine a position
clamped to `[0, max 0 (durationMs - 1000)]` when the duration is known
(`durationMs > 0`) and to `[0, ∞)` otherwise; consequently the engine is never
handed a position within the last 1000 ms of the file *provided*
`durationMs ≥ 1000`.  Relative seeks go through the same clamp. -/
theorem seek_clamp_correct (durationMs targetMs currentMs ms : Int) :
    0 ≤ seek_absolute durationMs targetMs ∧
    (0 < durationMs →
      seek_absolute durationMs targetMs ≤ max 0 (durationMs - 1000)) ∧
    (1000 ≤ durationMs →
      1000 ≤ durationMs - seek_absolute durationMs targetMs) ∧
    seek_relative durationMs currentMs ms =
      seek_absolute durationMs (currentMs + ms) := by
  refine ⟨?_, ?_, ?_, rfl⟩ <;>
    · simp only [seek_absolute]
      split <;> omega

/-- Witness for `seek_clamp_correct` at a concrete input. -/
theorem seek_clamp_correct_witness :
    0 ≤ seek_absolute 5000 9999 ∧
    (0 < (5000 : Int) →
      seek_absolute 5000 9999 ≤ max 0 (5000 - 1000)) ∧
    (1000 ≤ (5000 : Int) →
      1000 ≤ 5000 - seek_absolute 5000 9999) ∧
    seek_relative 5000 7000 2999 = seek_absolute 5000 (7000 + 2999) :=
  seek_clamp_correct 5000 9999 7000 2999

/-! ## Play/pause toggle and Smart Resume — `frames/player/playback_logic.py` -/

/-- The two Smart Resume settings as read from the settings table.  `none`
models an unset (None/empty-string) setting, for which the source falls back to
the default; a present value models `int(setting_str)`.  Note that the Python
guard is `int(s) if s else default`, so the *string* "0" is truthy and parses
to the value 0 — it does not select the default. -/
structure SmartResumeSettings where
  thresholdSec : Option Int
  rewindMs : Option Int

/-- `threshold_sec = int(threshold_str) if threshold_str else 300`
(playback_logic.py, line 86). -/
def parseThresholdSec : Option Int → Int
  | some t => t
  | none => 300

/-- `rewind_ms = int(rewind_str) if rewind_str else 10000`
(playback_logic.py, line 87). -/
def parseRewindMs : Option Int → Int
  | some r => r
  | none => 10000

/-- The slice of `PlayerFrame` and engine state read and written by
`toggle_play_pause`.  `enginePlaying` is `engine.is_playing()`;
`enginePosMs` is the engine position (`get_time`/`set_time`);
`engineLengthMs` is `engine.get_length()`; `indexInMap` models whether
`engine_to_frame_index_map.index(current_file_index)` succeeds;
`lastPauseTime` is `frame.last_pause_time` in wall-clock seconds (0 = unset). -/
structure PlayerToggleState where
  enginePlaying : Bool
  enginePosMs : Int
  durationMs : Int
  engineLengthMs : Int
  indexInMap : Bool
  isPlaying : Bool
  uiTimerRunning : Bool
  lastPauseTime : Int
  deriving DecidableEq

/-- `toggle_play_pause`, lines 55–60: when `engine.get_length() == 0`, re-jump
to the current file and `set_time(0)`; the whole block is skipped when the
index lookup raises (`indexInMap = false`). -/
def lengthZeroRecovery (s : PlayerToggleState) : PlayerToggleState :=
  if s.engineLengthMs = 0 ∧ s.indexInMap then { s with enginePosMs := 0 } else s

/-- `toggle_play_pause`, lines 70–76: on resume, if the position is within
1000 ms of a known file end, `set_time(0)` first. -/
def nearEofReset (s : PlayerToggleState) : PlayerToggleState :=
  if 0 < s.durationMs ∧ s.durationMs - s.enginePosMs < 1000 then
    { s with enginePosMs := 0 }
  else s

/-- `toggle_play_pause`, lines 78–96: the Smart Resume block, guarded by
`last_pause_time > 0`; rewinds when
`pause_duration > threshold_sec and rewind_ms > 0`, then always clears
`last_pause_time`. -/
def smartResumeStep (settings : SmartResumeSettings) (now : Int)
    (s : PlayerToggleState) : PlayerToggleState :=
  if 0 < s.lastPauseTime then
    let pauseDuration := now - s.lastPauseTime
    let rwMs := parseRewindMs settings.rewindMs
    let s3 :=
      if parseThresholdSec settings.thresholdSec < pauseDuration ∧ 0 < rwMs then
        { s with enginePosMs := max 0 (s.enginePosMs - rwMs) }
      else s
    { s3 with lastPauseTime := 0 }
  else s

/-- Embedding of `toggle_play_pause` (playback_logic.py, lines 47–102).
`now` is `time.time()` in seconds.  In source order: the zero-length recovery
(lines 55–60), the pause branch (lines 62–68), else the near-end-of-file
reset, the Smart Resume block, then `play()` and flag updates
(lines 98–102). -/
def toggle_play_pause (settings : SmartResumeSettings) (now : Int)
    (s : PlayerToggleState) : PlayerToggleState :=
  let s0 := lengthZeroRecovery s
  if s0.enginePlaying then
    { s0 with enginePlaying := false, isPlaying := false,
              uiTimerRunning := false, lastPauseTime := now }
  else
    let s2 := smartResumeStep settings now (nearEofReset s0)
    { s2 with enginePlaying := true, isPlaying := true, uiTimerRunning := true }

/-- A resume (Paused → Playing) five seconds after the pause, with
`smart_resume_threshold_sec` configured to the value 0. -/
def smartResumeZeroThresholdState : PlayerToggleState :=
  { enginePlaying := false, enginePosMs := 50000, durationMs := 100000,
    engineLengthMs := 100000, indexInMap := true, isPlaying := false,
    uiTimerRunning := false, lastPauseTime := 10 }

/-- C2 counterexample: with `smartResumeThresholdSec = 0` (and the rewind
amount at its 10000 ms default) a Paused → Playing transition after a pause of
five seconds *is* rewound, from 50000 ms to 40000 ms — configuring the
threshold to 0 does not disable Smart Resume. -/
theorem smart_resume_zero_threshold_counterexample :
    (toggle_play_pause ⟨some 0, none⟩ 15 smartResumeZeroThresholdState).enginePosMs
      = 40000 ∧
    smartResumeZeroThresholdState.enginePosMs = 50000 := by
  refine ⟨by decide, by decide⟩

/-- C2 (amended): configuring `smartResumeThresholdSec = 0` does not disable
Smart Resume — on every Paused → Playing transition whose pause lasted a
positive time (and whose parsed rewind amount is positive), the position is
rewound by `smartResumeRewindMs` (clamped at 0).  The feature is disabled by
configuring `smartResumeRewindMs = 0` instead: then the position is never
rewound on resume, regardless of how long the pause lasted.  (Both statements
exclude the independent near-end-of-file reset and zero-length recovery, which
overwrite the position with 0 rather than rewinding it.) -/
theorem smart_resume_disable_amended (settings : SmartResumeSettings)
    (now : Int) (s : PlayerToggleState)
    (hplay : s.enginePlaying = false)
    (hlen : s.engineLengthMs ≠ 0)
    (heof : ¬ (0 < s.durationMs ∧ s.durationMs - s.enginePosMs < 1000)) :
    (settings.rewindMs = some 0 →
      (toggle_play_pause settings now s).enginePosMs = s.enginePosMs) ∧
    (settings.thresholdSec = some 0 →
      0 < parseRewindMs settings.rewindMs →
      0 < s.lastPauseTime →
      s.lastPauseTime < now →
      (toggle_play_pause settings now s).enginePosMs =
        max 0 (s.enginePosMs - parseRewindMs settings.rewindMs)) := by
  have h0 : lengthZeroRecovery s = s := by
    rw [lengthZeroRecovery, if_neg]
    exact fun h => hlen h.1
  have h1 : nearEofReset s = s := by
    rw [nearEofReset, if_neg heof]
  constructor
  · intro hrw
    simp only [toggle_play_pause, h0, hplay, Bool.false_eq_true, if_false, h1]
    rw [smartResumeStep]
    rcases lt_or_le 0 s.lastPauseTime with hp | hp
    · rw [if_pos hp, hrw]
      dsimp only
      rw [if_neg (by simp [parseRewindMs])]
    · rw [if_neg (by omega)]
  · intro hth hrw hpause hlt
    simp only [toggle_play_pause, h0, hplay, Bool.false_eq_true, if_false, h1]
    rw [smartResumeStep, if_pos hpause]
    dsimp only
    rw [if_pos ⟨by simp only [hth, parseThresholdSec]; omega, hrw⟩]

/-- Witness for `smart_resume_disable_amended` at a concrete input. -/
theorem smart_resume_disable_amended_witness :
    ((⟨some 0, some 7000⟩ : SmartResumeSettings).rewindMs = some 0 →
      (toggle_play_pause ⟨some 0, some 7000⟩ 15 smartResumeZeroThresholdState).enginePosMs
        = smartResumeZeroThresholdState.enginePosMs) ∧
    ((⟨some 0, some 7000⟩ : SmartResumeSettings).thresholdSec = some 0 →
      0 < parseRewindMs (some 7000) →
      0 < smartResumeZeroThresholdState.lastPauseTime →
      smartResumeZeroThresholdState.lastPauseTime < 15 →
      (toggle_play_pause ⟨some 0, some 7000⟩ 15 smartResumeZeroThresholdState).enginePosMs =
        max 0 (smartResumeZeroThresholdState.enginePosMs - parseRewindMs (some 7000))) :=
  smart_resume_disable_amended ⟨some 0, some 7000⟩ 15 smartResumeZeroThresholdState
    (by rfl) (by decide) (by decide)

/-! ## Sleep timer — `utils.py`, class `SleepTimer`

Wall-clock timestamps are modelled in milliseconds as `Nat`.  The state
carries the fields of the Python object that outlive a single call:
`action_key`, `os_action_mode`, `end_time`, and whether the underlying
single-shot `wx.Timer` is running. -/

structure SleepTimer where
  actionKey : Option String
  osActionMode : Option String
  endTime : Option Nat
  timerRunning : Bool
  deriving DecidableEq

/-- `is_active` (utils.py, lines 115–117):
`self.timer.IsRunning() or self.end_time is not None`. -/
def SleepTimer.is_active (s : SleepTimer) : Bool :=
  s.timerRunning || s.endTime.isSome

/-- `get_remaining_seconds` (utils.py, lines 119–125).  Python computes
`int((end_time - now).total_seconds())` and clamps with `max(0, ·)`; for
`end ≥ now` the truncation is floor division by 1000, and for `now > end`
the clamped result is 0 — which truncating `Nat` subtraction models exactly. -/
def SleepTimer.get_remaining_seconds (s : SleepTimer) (now : Nat) : Option Nat :=
  if ¬ s.is_active then none
  else
    match s.endTime with
    | none => none
    | some e => some ((e - now) / 1000)

/-- `cancel_timer` (utils.py, lines 100–113): no-op returning `False` when not
active; otherwise stops the timer, clears all fields and returns `True`. -/
def SleepTimer.cancel_timer (s : SleepTimer) : SleepTimer × Bool :=
  if ¬ s.is_active then (s, false)
  else
    (⟨none, none, none, false⟩, true)

/-- `start_timer` (utils.py, lines 72–98): cancels any existing timer, records
the action key and mode, rejects a negative duration (returning `False` with
the key already recorded but no timer armed), otherwise computes the absolute
end time and arms the single-shot timer.  The cap of the scheduler delay to
`2^31 - 1` ms affects only when the underlying `wx.Timer` fires, not
`end_time`, and is irrelevant to the properties below. -/
def SleepTimer.start_timer (s : SleepTimer) (now : Nat) (durationMinutes : Int)
    (actionKey osActionMode : String) : SleepTimer × Bool :=
  let s1 := (s.cancel_timer).1
  let s2 := { s1 with actionKey := some actionKey, osActionMode := some osActionMode }
  if durationMinutes * 60 * 1000 < 0 then (s2, false)
  else
    ({ s2 with endTime := some (now + (durationMinutes * 60 * 1000).toNat),
               timerRunning := true }, true)

/-- `_on_timer_fired` (utils.py, lines 127–137), together with the wx
guarantee that a stopped single-shot timer delivers no event: a fire is only
possible while the timer is running; it clears the state to idle *before*
dispatching, and dispatches `action_key` only when one is set. -/
def SleepTimer.fire_step (s : SleepTimer) : SleepTimer × Option String :=
  if s.timerRunning then
    (⟨none, some "silent", none, false⟩, s.actionKey)
  else (s, none)

/-- Events deliverable to an armed-or-idle sleep timer with no intervening
`start_timer`. -/
inductive TimerEvent where
  | fire
  | cancel
  deriving DecidableEq

/-- One event step: the new state and the dispatched action, if any. -/
def SleepTimer.step (s : SleepTimer) : TimerEvent → SleepTimer × Option String
  | .fire => s.fire_step
  | .cancel => ((s.cancel_timer).1, none)

/-- Run a list of events, collecting every dispatched action. -/
def SleepTimer.run (s : SleepTimer) : List TimerEvent → List String
  | [] => []
  | ev :: evs =>
    let r := s.step ev
    r.2.toList ++ SleepTimer.run r.1 evs

/-- With the scheduler timer not running, no sequence of fire/cancel events
ever dispatches an action. -/
theorem SleepTimer.run_of_not_running (s : SleepTimer)
    (hs : s.timerRunning = false) :
    ∀ evs : List TimerEvent, s.run evs = [] := by
  intro evs
  induction evs generalizing s with
  | nil => rfl
  | cons ev evs ih =>
    cases ev with
    | fire =>
      simp only [SleepTimer.run, SleepTimer.step, SleepTimer.fire_step, hs,
        Bool.false_eq_true, if_false, Option.toList_none, List.nil_append]
      exact ih s hs
    | cancel =>
      simp only [SleepTimer.run, SleepTimer.step, Option.toList_none,
        List.nil_append]
      rcases h : s.cancel_timer with ⟨s1, b⟩
      have hs1 : s1.timerRunning = false := by
        rw [SleepTimer.cancel_timer] at h
        split at h
        · cases h; exact hs
        · cases h; rfl
      exact ih s1 hs1

/-- `cancel_timer` always leaves the scheduler timer not running: either the
state was inactive (so the timer was already stopped) or every field is
cleared. -/
theorem SleepTimer.cancel_not_running (s : SleepTimer) :
    ((s.cancel_timer).1).timerRunning = false := by
  rw [SleepTimer.cancel_timer]
  split
  · rename_i h
    rw [SleepTimer.is_active] at h
    simp only [Bool.or_eq_true, not_or, Bool.not_eq_true] at h
    exact h.1
  · rfl

/-- C7: `StartTimer` followed by `CancelTimer` before expiry dispatches no
action ever afterwards — every subsequent sequence of fire/cancel events (no
intervening `StartTimer`) produces an empty dispatch list; and `CancelTimer`
invoked while no timer is armed is an idempotent no-op: it returns `False` and
leaves the (idle) state completely unchanged. -/
theorem start_then_cancel_never_dispatches (s0 : SleepTimer) (now : Nat)
    (durationMinutes : Int) (actionKey osActionMode : String)
    (evs : List TimerEvent) (hidle : s0.is_active = false) :
    ((((s0.start_timer now durationMinutes actionKey osActionMode).1).cancel_timer).1).run evs
      = [] ∧
    s0.cancel_timer = (s0, false) := by
  constructor
  · exact SleepTimer.run_of_not_running _ (SleepTimer.cancel_not_running _) evs
  · rw [SleepTimer.cancel_timer, if_pos (by simp [hidle])]

/-- Witness for `start_then_cancel_never_dispatches` at a concrete input. -/
theorem start_then_cancel_never_dispatches_witness :
    (((((⟨none, some "silent", none, false⟩ : SleepTimer).start_timer 1000 30 "shutdown" "confirm").1).cancel_timer).1).run
        [TimerEvent.fire, TimerEvent.cancel, TimerEvent.fire] = [] ∧
    (⟨none, some "silent", none, false⟩ : SleepTimer).cancel_timer
      = (⟨none, some "silent", none, false⟩, false) :=
  start_then_cancel_never_dispatches ⟨none, some "silent", none, false⟩ 1000 30
    "shutdown" "confirm" [TimerEvent.fire, TimerEvent.cancel, TimerEvent.fire]
    (by decide)

/-- A timer armed to fire 10.5 s after the epoch of the example. -/
def remainingExampleTimer : SleepTimer :=
  ⟨some "pause", some "silent", some 10500, true⟩

/-- C5 counterexample: between two `get_remaining_seconds` calls separated by
100 ms of real elapsed time (no intervening `start_timer`), the returned value
does not strictly decrease — both calls report 10 s, because the wall-clock
delta is truncated to whole seconds. -/
theorem remaining_seconds_not_strictly_decreasing :
    remainingExampleTimer.get_remaining_seconds 0 = some 10 ∧
    remainingExampleTimer.get_remaining_seconds 100 = some 10 := by
  refine ⟨by decide, by decide⟩

/-- C5 (amended): for an armed timer, `get_remaining_seconds` is monotonically
non-increasing in wall-clock time, and strictly decreases between two calls
separated by at least one full second while the earlier reading is still
positive. -/
theorem remaining_seconds_decreasing (s : SleepTimer) (e t1 t2 r1 r2 : Nat)
    (he : s.endTime = some e) (h12 : t1 ≤ t2)
    (h1 : s.get_remaining_seconds t1 = some r1)
    (h2 : s.get_remaining_seconds t2 = some r2) :
    r2 ≤ r1 ∧ (1000 ≤ t2 - t1 → 0 < r1 → r2 < r1) := by
  have hact : s.is_active = true := by
    rw [SleepTimer.is_active, he]
    simp
  rw [SleepTimer.get_remaining_seconds, hact, he] at h1 h2
  simp at h1 h2
  constructor
  · omega
  · intro hsep hpos
    omega

/-- Witness for `remaining_seconds_decreasing` at a concrete input. -/
theorem remaining_seconds_decreasing_witness :
    5 ≤ 10 ∧ (1000 ≤ 5000 - 0 → 0 < 10 → 5 < 10) :=
  remaining_seconds_decreasing remainingExampleTimer 10500 0 5000 10 5
    (by decide) (by decide) (by decide) (by decide)

/-! ## Next/previous file and end-of-book policy — `frames/player/playback_logic.py` -/

/-- `_get_end_of_book_action` (playback_logic.py, lines 18–27): the stored
setting, defaulting to `"stop"` when unset or not one of the three valid
values. -/
def getEndOfBookAction : Option String → String
  | some a => if a = "stop" ∨ a = "loop" ∨ a = "close" then a else "stop"
  | none => "stop"

/-- The transport-relevant slice of the playback engine (`MpvEngine`):
whether it is paused, its position, and its playlist index. -/
structure EngineModel where
  paused : Bool
  posMs : Int
  plIndex : Nat
  deriving DecidableEq

def EngineModel.play (e : EngineModel) : EngineModel := { e with paused := false }

def EngineModel.pause (e : EngineModel) : EngineModel := { e with paused := true }

def EngineModel.set_time (e : EngineModel) (t : Int) : EngineModel := { e with posMs := t }

def EngineModel.playlist_jump (e : EngineModel) (i : Nat) : EngineModel := { e with plIndex := i }

def EngineModel.playlist_next (e : EngineModel) : EngineModel := { e with plIndex := e.plIndex + 1 }

/-- The slice of `PlayerFrame` state read and written by `play_next_file`,
plus the externally observable effects it can issue: catalog writes
(`set_book_finished` calls counted in `finishedMarks`, saved playback
positions collected in `savedStates`), the spoken boundary notification, and
the two `wx.CallLater` continuations. -/
structure PlayerSession where
  currentFileIndex : Nat
  numFiles : Nat
  isPlaying : Bool
  uiTimerRunning : Bool
  lastPauseTime : Int
  engine : EngineModel
  finishedMarks : Nat
  savedStates : List Int
  boundaryNotice : Bool
  toggleScheduled : Bool
  closeScheduled : Bool
  deriving DecidableEq

/-- Embedding of `play_next_file` (playback_logic.py, lines 105–168).
`endOfBookSetting` is the stored `end_of_book_action` setting and
`resumeOnJump` the result of `_should_resume_on_jump()`.  At the playlist
boundary (`current_file_index + 1 >= len(book_files_data)`): a manual call
only speaks the boundary notification; an automatic call marks the book
finished, resets to file 0 via `playlist_jump(0); play(); set_time(0);
pause()`, saves state with position 0, and then applies the end-of-book
action — for `"loop"` the unpause toggle is scheduled only when the session
was not playing and resume-on-jump is enabled, for `"close"` the escape
handler is scheduled, and for `"stop"` the playing flag and UI timer are
cleared.  Below the boundary the engine advances to the next file, with the
same conditional unpause toggle. -/
def play_next_file (endOfBookSetting : Option String) (resumeOnJump : Bool)
    (manual : Bool) (s : PlayerSession) : PlayerSession :=
  let wasPlaying := s.isPlaying
  if s.numFiles ≤ s.currentFileIndex + 1 then
    if manual then
      { s with boundaryNotice := true }
    else
      let s := { s with finishedMarks := s.finishedMarks + 1 }
      let action := getEndOfBookAction endOfBookSetting
      let s := { s with currentFileIndex := 0,
                        engine := (((s.engine.playlist_jump 0).play).set_time 0).pause }
      let s := { s with savedStates := s.savedStates ++ [0] }
      if action = "loop" then
        if ¬ wasPlaying ∧ resumeOnJump then { s with toggleScheduled := true } else s
      else if action = "close" then
        { s with closeScheduled := true }
      else
        { s with isPlaying := false, uiTimerRunning := false, lastPauseTime := 0 }
  else
    let s := { s with engine := s.engine.playlist_next }
    if ¬ wasPlaying ∧ resumeOnJump then { s with toggleScheduled := true } else s

/-- C9: a manual `NextFile` at the last file of the book changes nothing but
the spoken boundary notification: the current file, engine state, playing
flag, catalog-finished marks and saved states are all untouched, and the
end-of-book policy (for any configured action) is not executed. -/
theorem manual_next_at_boundary_noop (endOfBookSetting : Option String)
    (resumeOnJump : Bool) (s : PlayerSession)
    (hlast : s.numFiles ≤ s.currentFileIndex + 1) :
    play_next_file endOfBookSetting resumeOnJump true s
      = { s with boundaryNotice := true } := by
  rw [play_next_file]
  rw [if_pos hlast, if_pos rfl]

/-- Witness for `manual_next_at_boundary_noop` at a concrete input. -/
theorem manual_next_at_boundary_noop_witness :
    play_next_file (some "stop") true true
        ⟨4, 5, true, true, 0, ⟨false, 123456, 4⟩, 0, [], false, false, false⟩
      = { (⟨4, 5, true, true, 0, ⟨false, 123456, 4⟩, 0, [], false, false, false⟩ : PlayerSession)
            with boundaryNotice := true } :=
  manual_next_at_boundary_noop (some "stop") true
    ⟨4, 5, true, true, 0, ⟨false, 123456, 4⟩, 0, [], false, false, false⟩
    (by decide)

/-- A playing session positioned on the last file of a five-file book. -/
def loopEndOfBookSession : PlayerSession :=
  ⟨4, 5, true, true, 0, ⟨false, 123456, 4⟩, 0, [], false, false, false⟩

/-- C1, evaluated at the failing input: with `end_of_book_action = "loop"` and
an automatic (non-manual) advancement past the final file of a playing
session, the resulting session state does satisfy `currentFileSeq = 0`,
saved `positionMs = 0`, `isPlaying = true`, and the book is marked finished
exactly once — but the engine is left paused and no unpause toggle is
scheduled (the `not was_playing` guard fails while playing), so playback does
not actually resume even though the session's playing flag stays `true`. -/
theorem loop_auto_advance_leaves_engine_paused :
    (play_next_file (some "loop") true false loopEndOfBookSession).currentFileIndex = 0 ∧
    (play_next_file (some "loop") true false loopEndOfBookSession).engine.posMs = 0 ∧
    (play_next_file (some "loop") true false loopEndOfBookSession).savedStates = [0] ∧
    (play_next_file (some "loop") true false loopEndOfBookSession).isPlaying = true ∧
    (play_next_file (some "loop") true false loopEndOfBookSession).finishedMarks = 1 ∧
    (play_next_file (some "loop") true false loopEndOfBookSession).engine.paused = true ∧
    (play_next_file (some "loop") true false loopEndOfBookSession).toggleScheduled = false := by
  refine ⟨by decide, by decide, ?_, by decide, by decide, by decide, by decide⟩
  rw [play_next_file]
  decide

/-! ## A-B loop — `frames/player/loop_logic.py` -/

/-- The slice of `PlayerFrame` state touched by the loop functions:
`frame.loop_point_a_ms`, the engine's A/B loop window, the engine position,
and the file-repeat flag. -/
structure LoopFrame where
  hasEngine : Bool
  enginePosMs : Int
  loopPointA : Option Int
  engineLoopA : Option Int
  engineLoopB : Option Int
  isFileLooping : Bool
  deriving DecidableEq

/-- The outcome of `set_loop_end`, as spoken/reported to the caller.  Both
rejections are the spec's `InvalidNavigation` condition. -/
inductive LoopSetResult where
  | noEngine
  | invalidNavigationNoStart
  | invalidNavigationOrder
  | activated
  deriving DecidableEq

/-- Embedding of `set_loop_start` (loop_logic.py, lines 9–15): records the
current engine position as point A. -/
def set_loop_start (f : LoopFrame) : LoopFrame :=
  if ¬ f.hasEngine then f
  else { f with loopPointA := some f.enginePosMs }

/-- Embedding of `set_loop_end` (loop_logic.py, lines 18–39): requires point A
to be set (else an error with nothing changed), reads point B from the current
engine position, rejects `B < A` unchanged, and otherwise activates the engine
loop over `[A, B]` and seeks to A. -/
def set_loop_end (f : LoopFrame) : LoopFrame × LoopSetResult :=
  if ¬ f.hasEngine then (f, .noEngine)
  else
    match f.loopPointA with
    | none => (f, .invalidNavigationNoStart)
    | some a =>
      let b := f.enginePosMs
      if b < a then (f, .invalidNavigationOrder)
      else
        ({ f with engineLoopA := some a, engineLoopB := some b, enginePosMs := a },
         .activated)

/-- Embedding of `clear_loop` (loop_logic.py, lines 42–48): deactivates the
engine loop and discards point A. -/
def clear_loop (f : LoopFrame) : LoopFrame :=
  if ¬ f.hasEngine then f
  else { f with engineLoopA := none, engineLoopB := none, loopPointA := none }

/-- C8: with an engine present, `set_loop_end` (a) invoked while point A is
unset fails with the `InvalidNavigation` condition and changes nothing — A
stays unset and no engine loop is activated; (b) with `B < A` is likewise
rejected with the state unchanged; and (c) with A set and `B ≥ A` activates
the engine loop over `[A, B]` and seeks playback to A. -/
theorem set_loop_end_spec (f : LoopFrame) (hEng : f.hasEngine = true) :
    (f.loopPointA = none →
      set_loop_end f = (f, .invalidNavigationNoStart)) ∧
    (∀ a, f.loopPointA = some a → f.enginePosMs < a →
      set_loop_end f = (f, .invalidNavigationOrder)) ∧
    (∀ a, f.loopPointA = some a → a ≤ f.enginePosMs →
      set_loop_end f =
        ({ f with engineLoopA := some a, engineLoopB := some f.enginePosMs,
                  enginePosMs := a },
         .activated)) := by
  refine ⟨?_, ?_, ?_⟩
  · intro hA
    rw [set_loop_end, if_neg (by simp [hEng]), hA]
  · intro a hA hlt
    rw [set_loop_end, if_neg (by simp [hEng]), hA]
    dsimp only
    rw [if_pos hlt]
  · intro a hA hle
    rw [set_loop_end, if_neg (by simp [hEng]), hA]
    dsimp only
    rw [if_neg (by omega)]

/-- Witness for `set_loop_end_spec` at a concrete input (A set at 2000 ms,
engine position 5000 ms). -/
theorem set_loop_end_spec_witness :
    ((⟨true, 5000, some 2000, none, none, false⟩ : LoopFrame).loopPointA = none →
      set_loop_end ⟨true, 5000, some 2000, none, none, false⟩
        = (⟨true, 5000, some 2000, none, none, false⟩, .invalidNavigationNoStart)) ∧
    (∀ a, (⟨true, 5000, some 2000, none, none, false⟩ : LoopFrame).loopPointA = some a →
      (⟨true, 5000, some 2000, none, none, false⟩ : LoopFrame).enginePosMs < a →
      set_loop_end ⟨true, 5000, some 2000, none, none, false⟩
        = (⟨true, 5000, some 2000, none, none, false⟩, .invalidNavigationOrder)) ∧
    (∀ a, (⟨true, 5000, some 2000, none, none, false⟩ : LoopFrame).loopPointA = some a →
      a ≤ (⟨true, 5000, some 2000, none, none, false⟩ : LoopFrame).enginePosMs →
      set_loop_end ⟨true, 5000, some 2000, none, none, false⟩
        = ({ (⟨true, 5000, some 2000, none, none, false⟩ : LoopFrame) with
              engineLoopA := some a,
              engineLoopB := some (⟨true, 5000, some 2000, none, none, false⟩ : LoopFrame).enginePosMs,
              enginePosMs := a },
           .activated)) :=
  set_loop_end_spec ⟨true, 5000, some 2000, none, none, false⟩ (by decide)

/-! ## Cross-book switch — `frames/player/book_loader.py` -/

/-- The environment of the outgoing-book part of `BookLoader.load_new_book`:
whether an engine exists, what `engine.get_time()` returns (`none` models the
call raising, in which case the source keeps `current_time = 0`), and whether
the parent frame exposes `update_history_list`. -/
structure SwitchEnv where
  hasEngine : Bool
  engineTimeMs : Option Int
  parentHasHistoryView : Bool
  deriving DecidableEq

/-- The externally observable effects of the outgoing-book part of
`load_new_book` (book_loader.py, lines 181–213): whether the caller's history
view refresh was scheduled, the final position written through
`save_playback_state`, and whether the engine was stopped. -/
structure SwitchEffects where
  historyUpdated : Bool
  savedFinalMs : Option Int
  engineStopped : Bool
  deriving DecidableEq

/-- Embedding of the outgoing-book half of `BookLoader.load_new_book`
(book_loader.py, lines 196–212): with an engine present, reads
`current_time` (0 when `get_time` raises), schedules the caller's history
refresh only when `current_time > 60000` and the parent exposes the history
list, saves the outgoing state at `current_time`, and stops the engine; with
no engine none of this happens. -/
def load_new_book_outgoing (env : SwitchEnv) : SwitchEffects :=
  if env.hasEngine then
    let currentTime := env.engineTimeMs.getD 0
    { historyUpdated := decide (60000 < currentTime) && env.parentHasHistoryView,
      savedFinalMs := some currentTime,
      engineStopped := true }
  else
    { historyUpdated := false, savedFinalMs := none, engineStopped := false }

/-- C6: for a cross-book switch with a live engine and a caller exposing a
history view, the history view is refreshed exactly when the elapsed time
reported by the engine for the outgoing book exceeds the 60-second
(60000 ms) threshold; at or below the threshold it is left unchanged. -/
theorem switch_history_gate (env : SwitchEnv) (t : Int)
    (hEng : env.hasEngine = true) (ht : env.engineTimeMs = some t)
    (hPar : env.parentHasHistoryView = true) :
    ((load_new_book_outgoing env).historyUpdated = true ↔ 60000 < t) := by
  rw [load_new_book_outgoing, if_pos hEng, ht]
  simp [hPar]

/-- Witness for `switch_history_gate` at a concrete input (61 s listened). -/
theorem switch_history_gate_witness :
    ((load_new_book_outgoing ⟨true, some 61000, true⟩).historyUpdated = true
      ↔ (60000 : Int) < 61000) :=
  switch_history_gate ⟨true, some 61000, true⟩ 61000 (by decide) (by decide) (by decide)

/-! ## Duration refinement worker — `frames/library/task_handlers.py` -/

/-- One row of `db_manager.get_book_files(book_id)`:
`(db_id, path, file_index, duration)`. -/
structure DbFileRow where
  fileId : Nat
  path : String
  seqIndex : Nat
  durationMs : Int
  deriving DecidableEq

/-- The pool bound `min(8, (os.cpu_count() or 4) + 4)`
(task_handlers.py, line 370); `none` models `os.cpu_count()` returning
`None`, and Python's `or` also maps a zero count to 4. -/
def maxWorkers (cpuCount : Option Nat) : Nat :=
  min 8 ((match cpuCount with
          | some n => if n = 0 then 4 else n
          | none => 4) + 4)

/-- Embedding of `_get_file_duration_task` (task_handlers.py,
lines 334–346).  The filesystem and tag probe are the environment, modelled
by `probe : path → Option durationMs`; `none` covers a missing or empty file,
a raising `TinyTag.get`, and a tag without a (truthy) duration — all of which
make the task return `None`. -/
def get_file_duration_task (probe : String → Option Int) (t : Nat × String) :
    Option (Nat × Int) :=
  match probe t.2 with
  | some d => some (t.1, d)
  | none => none

/-- The accumulate-and-flush loop of `_background_duration_worker`
(task_handlers.py, lines 368–381): results are appended to `updates`, the
batch is flushed to `update_file_duration_batch` whenever it reaches
`batch_size = 100`, and a non-empty final partial batch is flushed at the
end.  `executor.map` yields results in task order, so the pool is
observationally a sequential traversal here.  Returns the list of flushed
batches. -/
def flushLoop (probe : String → Option Int) :
    List (Nat × String) → List (Nat × Int) → List (List (Nat × Int))
  | [], updates => if updates.isEmpty then [] else [updates]
  | t :: ts, updates =>
    let updates1 :=
      match get_file_duration_task probe t with
      | some r => updates ++ [r]
      | none => updates
    if 100 ≤ updates1.length then
      updates1 :: flushLoop probe ts []
    else
      flushLoop probe ts updates1

/-- Embedding of `_background_duration_worker` (task_handlers.py,
lines 349–386), as the list of batches written to the catalog.  It returns
immediately (writing nothing) when the catalog row count differs from the
scanned file list length, collects the tasks whose placeholder duration is
still 0, returns with no write when there are none, and otherwise runs the
accumulate-and-flush loop. -/
def background_duration_worker (probe : String → Option Int)
    (dbFiles : List DbFileRow) (fileListLength : Nat) :
    List (List (Nat × Int)) :=
  if dbFiles.length ≠ fileListLength then []
  else
    let tasks := (dbFiles.filter (fun f => f.durationMs == 0)).map
      (fun f => (f.fileId, f.path))
    if tasks.isEmpty then []
    else flushLoop probe tasks []

/-- The concatenation of all flushed batches is the accumulator followed by
exactly the successful probe results, in task order. -/
theorem flushLoop_flatten (probe : String → Option Int) (ts : List (Nat × String))
    (acc : List (Nat × Int)) :
    (flushLoop probe ts acc).flatten
      = acc ++ ts.filterMap (get_file_duration_task probe) := by
  induction ts generalizing acc with
  | nil =>
    rw [flushLoop]
    split
    · rename_i h
      simp [List.isEmpty_iff.mp h]
    · simp
  | cons t ts ih =>
    rw [flushLoop]
    cases hpt : get_file_duration_task probe t with
    | some r =>
      simp only [hpt]
      split
      · simp [ih, List.filterMap_cons, hpt]
      · simp [ih, List.filterMap_cons, hpt]
    | none =>
      simp only [hpt]
      split
      · simp [ih, List.filterMap_cons, hpt]
      · simp [ih, List.filterMap_cons, hpt]

/-- Every flushed batch holds at most 100 results, provided the accumulator
entered with fewer than 100. -/
theorem flushLoop_batch_le (probe : String → Option Int) (ts : List (Nat × String))
    (acc : List (Nat × Int)) (hacc : acc.length < 100) :
    ∀ b ∈ flushLoop probe ts acc, b.length ≤ 100 := by
  induction ts generalizing acc with
  | nil =>
    intro b hb
    rw [flushLoop] at hb
    split at hb
    · simp at hb
    · simp only [List.mem_singleton] at hb
      subst hb
      omega
  | cons t ts ih =>
    intro b hb
    rw [flushLoop] at hb
    cases hpt : get_file_duration_task probe t with
    | some r =>
      simp only [hpt] at hb
      split at hb
      · rename_i hfull
        simp only [List.length_append, List.length_singleton] at hfull
        rcases List.mem_cons.mp hb with hb | hb
        · subst hb
          simp only [List.length_append, List.length_singleton]
          omega
        · exact ih [] (by simp) b hb
      · rename_i hroom
        simp only [List.length_append, List.length_singleton, not_le] at hroom
        exact ih (acc ++ [r]) (by simpa using hroom) b hb
    | none =>
      simp only [hpt] at hb
      split at hb
      · omega
      · exact ih acc hacc b hb

/-- C4: the worker's pool bound is `min(8, cpuCount + 4)`; every batch flushed
to the catalog holds at most 100 results; the flushed results are exactly the
successful probes over the placeholder-duration tasks (failed probes are
dropped, leaving those durations at 0); hence the flushed total never exceeds
the task count, and in particular 250 tasks flush at most 250 results. -/
theorem duration_worker_batches (probe : String → Option Int)
    (dbFiles : List DbFileRow) (cpu : Nat) (hcpu : 0 < cpu) :
    maxWorkers (some cpu) = min 8 (cpu + 4) ∧
    (∀ b ∈ background_duration_worker probe dbFiles dbFiles.length,
      b.length ≤ 100) ∧
    (background_duration_worker probe dbFiles dbFiles.length).flatten
      = ((dbFiles.filter (fun f => f.durationMs == 0)).map
          (fun f => (f.fileId, f.path))).filterMap (get_file_duration_task probe) ∧
    ((background_duration_worker probe dbFiles dbFiles.length).flatten).length
      ≤ ((dbFiles.filter (fun f => f.durationMs == 0)).map
          (fun f => (f.fileId, f.path))).length ∧
    (((dbFiles.filter (fun f => f.durationMs == 0)).map
        (fun f => (f.fileId, f.path))).length = 250 →
      ((background_duration_worker probe dbFiles dbFiles.length).flatten).length ≤ 250) := by
  have hworker : background_duration_worker probe dbFiles dbFiles.length
      = (if ((dbFiles.filter (fun f => f.durationMs == 0)).map
            (fun f => (f.fileId, f.path))).isEmpty then []
         else flushLoop probe ((dbFiles.filter (fun f => f.durationMs == 0)).map
            (fun f => (f.fileId, f.path))) []) := by
    rw [background_duration_worker, if_neg (by exact fun h => h rfl)]
  have hjoin : (background_duration_worker probe dbFiles dbFiles.length).flatten
      = ((dbFiles.filter (fun f => f.durationMs == 0)).map
          (fun f => (f.fileId, f.path))).filterMap (get_file_duration_task probe) := by
    rw [hworker]
    split
    · rename_i h
      rw [List.isEmpty_iff.mp h]
      simp
    · rw [flushLoop_flatten]
      simp
  refine ⟨?_, ?_, hjoin, ?_, ?_⟩
  · rw [maxWorkers]
    rw [if_neg (by omega)]
  · intro b hb
    rw [hworker] at hb
    split at hb
    · simp at hb
    · exact flushLoop_batch_le probe _ [] (by simp) b hb
  · rw [hjoin]
    exact List.length_filterMap_le _ _
  · intro h250
    rw [hjoin]
    calc (((dbFiles.filter (fun f => f.durationMs == 0)).map
            (fun f => (f.fileId, f.path))).filterMap (get_file_duration_task probe)).length
        ≤ ((dbFiles.filter (fun f => f.durationMs == 0)).map
            (fun f => (f.fileId, f.path))).length := List.length_filterMap_le _ _
      _ ≤ 250 := by omega

/-- Witness for `duration_worker_batches` at a concrete input: a two-file
book whose first file probes successfully and whose second probe fails. -/
theorem duration_worker_batches_witness :
    maxWorkers (some 2) = min 8 (2 + 4) ∧
    (∀ b ∈ background_duration_worker
        (fun p => if p = "a.mp3" then some 1234 else none)
        [⟨7, "a.mp3", 0, 0⟩, ⟨8, "b.mp3", 1, 0⟩]
        ([⟨7, "a.mp3", 0, 0⟩, ⟨8, "b.mp3", 1, 0⟩] : List DbFileRow).length,
      b.length ≤ 100) ∧
    (background_duration_worker
        (fun p => if p = "a.mp3" then some 1234 else none)
        [⟨7, "a.mp3", 0, 0⟩, ⟨8, "b.mp3", 1, 0⟩]
        ([⟨7, "a.mp3", 0, 0⟩, ⟨8, "b.mp3", 1, 0⟩] : List DbFileRow).length).flatten
      = ((([⟨7, "a.mp3", 0, 0⟩, ⟨8, "b.mp3", 1, 0⟩] : List DbFileRow).filter
          (fun f => f.durationMs == 0)).map (fun f => (f.fileId, f.path))).filterMap
            (get_file_duration_task (fun p => if p = "a.mp3" then some 1234 else none)) ∧
    ((background_duration_worker
        (fun p => if p = "a.mp3" then some 1234 else none)
        [⟨7, "a.mp3", 0, 0⟩, ⟨8, "b.mp3", 1, 0⟩]
        ([⟨7, "a.mp3", 0, 0⟩, ⟨8, "b.mp3", 1, 0⟩] : List DbFileRow).length).flatten).length
      ≤ ((([⟨7, "a.mp3", 0, 0⟩, ⟨8, "b.mp3", 1, 0⟩] : List DbFileRow).filter
          (fun f => f.durationMs == 0)).map (fun f => (f.fileId, f.path))).length ∧
    (((([⟨7, "a.mp3", 0, 0⟩, ⟨8, "b.mp3", 1, 0⟩] : List DbFileRow).filter
        (fun f => f.durationMs == 0)).map (fun f => (f.fileId, f.path))).length = 250 →
      ((background_duration_worker
          (fun p => if p = "a.mp3" then some 1234 else none)
          [⟨7, "a.mp3", 0, 0⟩, ⟨8, "b.mp3", 1, 0⟩]
          ([⟨7, "a.mp3", 0, 0⟩, ⟨8, "b.mp3", 1, 0⟩] : List DbFileRow).length).flatten).length ≤ 250) :=
  duration_worker_batches (fun p => if p = "a.mp3" then some 1234 else none)
    [⟨7, "a.mp3", 0, 0⟩, ⟨8, "b.mp3", 1, 0⟩] 2 (by decide)

/-- C10: when the catalog returns a number of file rows different from the
length of the scanned file list the worker was given, the worker performs no
catalog write at all — the list of flushed batches is empty. -/
theorem worker_row_count_mismatch_no_write (probe : String → Option Int)
    (dbFiles : List DbFileRow) (fileListLength : Nat)
    (h : dbFiles.length ≠ fileListLength) :
    background_duration_worker probe dbFiles fileListLength = [] := by
  rw [background_duration_worker, if_pos h]

/-- Witness for `worker_row_count_mismatch_no_write` at a concrete input:
one catalog row against a two-entry scanned file list. -/
theorem worker_row_count_mismatch_no_write_witness :
    background_duration_worker (fun _ => some 1000) [⟨7, "a.mp3", 0, 0⟩] 2 = [] :=
  worker_row_count_mismatch_no_write (fun _ => some 1000) [⟨7, "a.mp3", 0, 0⟩] 2
    (by decide)

end AudioShelf
